import Mathlib

/-!
Shallow embedding of the selenium-mcp server (`src/server.py`).

The server mediates between MCP tool calls and a remote browserless
service.  Its core is `BrowserlessManager`: a dictionary from session
identifier to a WebDriver handle, plus the endpoint and optional bearer
token used to establish new connections.  Remote WebDriver handles are
modelled as natural-number identifiers allocated by a counter; the actual
browser behaviour (page loads, element queries, script results,
screenshots) is supplied by oracle functions, since it lives on the remote
service, not in this repository.  Python dictionaries are modelled as
association lists with dict semantics (lookup finds the first binding,
assignment replaces in place or appends, deletion removes the key).
Python exceptions are modelled as `Except String`; because the manager's
mutations survive a raised exception, each tool operation returns its
`Except` result paired with the post-call manager state.
-/

namespace SeleniumMCP

/-- Value of a serialized response field (the JSON-like payload a pydantic
model produces). -/
inductive JsonVal where
  | str (s : String)
  | num (n : Int)
  | bool (b : Bool)
  | obj (fields : List (String × JsonVal))
  | null
  deriving Repr

/-- Dictionary lookup, `d.get(k)` / `d[k]`: the first binding of the key. -/
def dictGet {κ α : Type} [DecidableEq κ] (m : List (κ × α)) (k : κ) :
    Option α :=
  match m with
  | [] => none
  | (k', v) :: t => if k' = k then some v else dictGet t k

/-- Dictionary assignment `d[k] = v`: replace the existing binding in place,
else append a new one. -/
def dictSet {κ α : Type} [DecidableEq κ] (m : List (κ × α)) (k : κ) (v : α) :
    List (κ × α) :=
  match m with
  | [] => [(k, v)]
  | (k', v') :: t => if k' = k then (k, v) :: t else (k', v') :: dictSet t k v

/-- Dictionary deletion `del d[k]`: remove the key's bindings. -/
def dictDel {κ α : Type} [DecidableEq κ] (m : List (κ × α)) (k : κ) :
    List (κ × α) :=
  m.filter (fun kv => kv.1 ≠ k)

/-- Selenium locator strategies (`selenium.webdriver.common.by.By`). -/
inductive By where
  | CSS_SELECTOR
  | XPATH
  | ID
  | NAME
  | CLASS_NAME
  | TAG_NAME
  | LINK_TEXT
  | PARTIAL_LINK_TEXT
  deriving Repr, DecidableEq

/-- Uppercase-to-lowercase table for the ASCII letters. -/
def lowerMap : List (Char × Char) :=
  [('A', 'a'), ('B', 'b'), ('C', 'c'), ('D', 'd'), ('E', 'e'), ('F', 'f'),
   ('G', 'g'), ('H', 'h'), ('I', 'i'), ('J', 'j'), ('K', 'k'), ('L', 'l'),
   ('M', 'm'), ('N', 'n'), ('O', 'o'), ('P', 'p'), ('Q', 'q'), ('R', 'r'),
   ('S', 's'), ('T', 't'), ('U', 'u'), ('V', 'v'), ('W', 'w'), ('X', 'x'),
   ('Y', 'y'), ('Z', 'z')]

/-- Lowercase one character (ASCII range, as Python's `str.lower` acts on
the ASCII strategy names used here). -/
def lowerChar (c : Char) : Char :=
  (dictGet lowerMap c).getD c

/-- Python's `s.lower()` applied to a strategy string. -/
def pyLower (s : String) : String :=
  String.mk (s.data.map lowerChar)

/-- Embedding of the literal dictionary mapping strategy names to `By`
constants in `find_element` and `click_element` (src/server.py:246-254 and
288-296). -/
def by_method_table : List (String × By) :=
  [("css", By.CSS_SELECTOR),
   ("xpath", By.XPATH),
   ("id", By.ID),
   ("name", By.NAME),
   ("class_name", By.CLASS_NAME),
   ("tag_name", By.TAG_NAME),
   ("link_text", By.LINK_TEXT),
   ("partial_link_text", By.PARTIAL_LINK_TEXT)]

/-- Strategy resolution: `{...}.get(params.by.lower(), By.CSS_SELECTOR)`
(src/server.py:246-255). -/
def byMethodOf (byStr : String) : By :=
  (dictGet by_method_table (pyLower byStr)).getD By.CSS_SELECTOR

/-- Python's `s.rstrip('/')` as applied to the endpoint
(src/server.py:93). -/
def rstripSlash (s : String) : String :=
  String.mk ((s.data.reverse.dropWhile (fun c => c = '/')).reverse)

/-- WebDriver handles are identified by allocation order; identity of
handles is identity of these identifiers. -/
abbrev DriverId := Nat

/-- Embedding of the `BrowserlessManager` state (src/server.py:89-95),
extended with the bookkeeping a shallow embedding needs: `nextId` is the
allocator for fresh driver handles and `quitted` records every handle on
which the registry has invoked `quit`. -/
structure BrowserlessManager where
  browserless_url : String
  auth_token : Option String
  drivers : List (String × DriverId)
  nextId : Nat
  quitted : List DriverId
  deriving Repr, DecidableEq

/-- Embedding of `BrowserlessManager.__init__` (src/server.py:92-95). -/
def newManager (url : String) (tok : Option String) : BrowserlessManager :=
  { browserless_url := rstripSlash url
    auth_token := tok
    drivers := []
    nextId := 0
    quitted := [] }

/-- Embedding of `BrowserlessManager.create_driver` (src/server.py:97-137):
build a fresh remote WebDriver (a fresh identifier here; the connection
options and authentication headers live on the remote side), store it
under `session_id` — overwriting any prior binding, without quitting the
prior handle — and return it. -/
def create_driver (m : BrowserlessManager) (session_id : String) :
    DriverId × BrowserlessManager :=
  let driver := m.nextId
  (driver,
   { m with
     drivers := dictSet m.drivers session_id driver
     nextId := m.nextId + 1 })

/-- Embedding of `BrowserlessManager.get_driver` (src/server.py:139-141). -/
def get_driver (m : BrowserlessManager) (session_id : String) :
    Option DriverId :=
  dictGet m.drivers session_id

/-- Embedding of `BrowserlessManager.close_driver` (src/server.py:143-150).
The oracle `quitFails` says whether `quit()` raises on a given handle; the
`try/except: pass` around it means the outcome is discarded either way,
which is why this function is total (no `Except` in its type): nothing
propagates.  The quit attempt is recorded in `quitted`, then the key is
deleted. -/
def close_driver (quitFails : DriverId → Bool) (m : BrowserlessManager)
    (session_id : String) : BrowserlessManager :=
  match dictGet m.drivers session_id with
  | some d =>
      let _quitOutcome := quitFails d
      { m with
        drivers := dictDel m.drivers session_id
        quitted := d :: m.quitted }
  | none => m

/-- Embedding of `BrowserlessManager.close_all` (src/server.py:152-155):
close every tracked session id, iterating over a snapshot of the keys. -/
def close_all (quitFails : DriverId → Bool) (m : BrowserlessManager) :
    BrowserlessManager :=
  (m.drivers.map Prod.fst).foldl (close_driver quitFails) m

/-- Process environment as read by `os.getenv` (only the two variables the
server consults). -/
structure Env where
  browserless_url : Option String
  browserless_token : Option String

/-- Embedding of `get_browserless_manager` (src/server.py:162-174).  The
global `browserless_manager` is threaded explicitly: the function takes
the current global (`none` before first construction) and returns the
raised-or-returned manager together with the new global.  Python's
`if not browserless_url` treats an unset variable and an empty string
alike. -/
def get_browserless_manager (env : Env) (g : Option BrowserlessManager) :
    Except String BrowserlessManager × Option BrowserlessManager :=
  match g with
  | some m => (.ok m, some m)
  | none =>
    match env.browserless_url with
    | none => (.error "BROWSERLESS_URL environment variable is required", none)
    | some url =>
      if url = "" then
        (.error "BROWSERLESS_URL environment variable is required", none)
      else
        let m := newManager url env.browserless_token
        (.ok m, some m)

/-- What a WebDriver handle reports about the page it is on (`driver.title`,
`driver.current_url`, `driver.page_source`, `driver.current_window_handle`);
supplied by the remote browser, hence an oracle value here. -/
structure BrowserObs where
  title : String
  current_url : String
  page_source : String
  window_handle : String
  deriving Repr, DecidableEq

/-- What the remote browser reports about a found element: its tag name,
visible text, attribute lookup (`get_attribute`, `none` when absent), and
location/size dictionaries. -/
structure ElementData where
  tag_name : String
  text : String
  attrs : List (String × String)
  location : List (String × Int)
  size : List (String × Int)
  deriving Repr, DecidableEq

/-- Oracles for everything the remote browserless service does.  Each
field answers for one delegated WebDriver call; `none` means that call
raised (timeout, element not found, script error, connection loss). -/
structure Remote where
  nav : DriverId → String → Option BrowserObs
  findEl : DriverId → By → String → Option ElementData
  clickObs : DriverId → Option BrowserObs
  execJs : DriverId → String → Option JsonVal
  shot : DriverId → Option String
  obs : DriverId → Option BrowserObs
  quitFails : DriverId → Bool

/-- Embedding of the pydantic `NavigateResponse` model (src/server.py:29-33). -/
structure NavigateResponse where
  title : String
  current_url : String
  success : Bool := true
  deriving Repr, DecidableEq

/-- Embedding of the pydantic `ElementInfo` model (src/server.py:42-48);
note it declares no `success` field. -/
structure ElementInfo where
  tag_name : String
  text : String
  attributes : List (String × String)
  location : List (String × Int)
  size : List (String × Int)
  deriving Repr, DecidableEq

/-- Embedding of the pydantic `ClickResponse` model (src/server.py:51-55). -/
structure ClickResponse where
  success : Bool := true
  new_title : String
  new_url : String
  deriving Repr, DecidableEq

/-- Embedding of the pydantic `ScriptResponse` model (src/server.py:63-66). -/
structure ScriptResponse where
  success : Bool := true
  result : JsonVal
  deriving Repr

/-- Embedding of the pydantic `ScreenshotResponse` model (src/server.py:69-72). -/
structure ScreenshotResponse where
  screenshot : String
  success : Bool := true
  deriving Repr, DecidableEq

/-- Embedding of the pydantic `PageInfo` model (src/server.py:75-80); note
it declares no `success` field. -/
structure PageInfo where
  title : String
  url : String
  page_source_length : Nat
  window_handle : String
  deriving Repr, DecidableEq

/-- Embedding of the pydantic `CloseResponse` model (src/server.py:83-86). -/
structure CloseResponse where
  success : Bool := true
  message : String
  deriving Repr, DecidableEq

/-- Serialization of `NavigateResponse` to named fields, in declaration
order, as pydantic emits it. -/
def NavigateResponse.toFields (r : NavigateResponse) : List (String × JsonVal) :=
  [("title", .str r.title), ("current_url", .str r.current_url),
   ("success", .bool r.success)]

/-- Serialization of `ElementInfo` to named fields. -/
def ElementInfo.toFields (r : ElementInfo) : List (String × JsonVal) :=
  [("tag_name", .str r.tag_name), ("text", .str r.text),
   ("attributes", .obj (r.attributes.map (fun kv => (kv.1, .str kv.2)))),
   ("location", .obj (r.location.map (fun kv => (kv.1, .num kv.2)))),
   ("size", .obj (r.size.map (fun kv => (kv.1, .num kv.2))))]

/-- Serialization of `ClickResponse` to named fields. -/
def ClickResponse.toFields (r : ClickResponse) : List (String × JsonVal) :=
  [("success", .bool r.success), ("new_title", .str r.new_title),
   ("new_url", .str r.new_url)]

/-- Serialization of `ScriptResponse` to named fields. -/
def ScriptResponse.toFields (r : ScriptResponse) : List (String × JsonVal) :=
  [("success", .bool r.success), ("result", r.result)]

/-- Serialization of `ScreenshotResponse` to named fields. -/
def ScreenshotResponse.toFields (r : ScreenshotResponse) : List (String × JsonVal) :=
  [("screenshot", .str r.screenshot), ("success", .bool r.success)]

/-- Serialization of `PageInfo` to named fields. -/
def PageInfo.toFields (r : PageInfo) : List (String × JsonVal) :=
  [("title", .str r.title), ("url", .str r.url),
   ("page_source_length", .num r.page_source_length),
   ("window_handle", .str r.window_handle)]

/-- Serialization of `CloseResponse` to named fields. -/
def CloseResponse.toFields (r : CloseResponse) : List (String × JsonVal) :=
  [("success", .bool r.success), ("message", .str r.message)]

/-- Error message raised by the five operations that require an existing
session (src/server.py:243 and its four copies). -/
def noActiveSession : String :=
  "No active browser session. Please navigate to a URL first."

/-- Embedding of the `navigate_to_url` tool (src/server.py:207-230):
resolve the driver by get-or-create, load the URL (waiting for a body
element — part of the oracle's success), and report title and URL with
`success := true`; failures are wrapped with the URL.  The manager state
is returned alongside the result because its mutation survives a raised
exception. -/
def navigate_to_url (rem : Remote) (m : BrowserlessManager)
    (url session_id : String) :
    Except String NavigateResponse × BrowserlessManager :=
  let (driver, m') :=
    match get_driver m session_id with
    | some d => (d, m)
    | none => create_driver m session_id
  match rem.nav driver url with
  | some o =>
      (.ok { title := o.title, current_url := o.current_url, success := true }, m')
  | none => (.error ("Failed to navigate to " ++ url), m')

/-- Attribute sub-dictionary built by `find_element` (src/server.py:262-266):
the fixed attribute subset, keeping only truthy values (in Python an
absent attribute is `None` and an empty string is falsy, so both drop). -/
def buildAttrs (el : ElementData) : List (String × String) :=
  (["id", "class", "name", "href", "src"].filterMap
    (fun a =>
      match dictGet el.attrs a with
      | some v => if v = "" then none else some (a, v)
      | none => none))

/-- Embedding of the `find_element` tool (src/server.py:234-272): require
an existing driver (no creation), resolve the strategy through
`byMethodOf`, and describe the found element; failures are wrapped with
the strategy and selector. -/
def find_element (rem : Remote) (m : BrowserlessManager)
    (selector byStr session_id : String) :
    Except String ElementInfo × BrowserlessManager :=
  match get_driver m session_id with
  | none => (.error noActiveSession, m)
  | some driver =>
    let by_method := byMethodOf byStr
    match rem.findEl driver by_method selector with
    | none =>
        (.error ("Failed to find element with " ++ byStr ++ " selector '" ++
                 selector ++ "'"), m)
    | some element =>
        (.ok { tag_name := element.tag_name
               text := element.text
               attributes := buildAttrs element
               location := element.location
               size := element.size }, m)

/-- Embedding of the `click_element` tool (src/server.py:276-314): require
an existing driver, resolve the strategy through `byMethodOf`, find and
click the element, wait for a body element, and report the resulting title
and URL with `success := true`. -/
def click_element (rem : Remote) (m : BrowserlessManager)
    (selector byStr session_id : String) :
    Except String ClickResponse × BrowserlessManager :=
  match get_driver m session_id with
  | none => (.error noActiveSession, m)
  | some driver =>
    let by_method := byMethodOf byStr
    match rem.findEl driver by_method selector with
    | none =>
        (.error ("Failed to click element with " ++ byStr ++ " selector '" ++
                 selector ++ "'"), m)
    | some _element =>
      match rem.clickObs driver with
      | none =>
          (.error ("Failed to click element with " ++ byStr ++ " selector '" ++
                   selector ++ "'"), m)
      | some o =>
          (.ok { success := true, new_title := o.title, new_url := o.current_url }, m)

/-- Embedding of the `execute_javascript` tool (src/server.py:318-337):
require an existing driver, run the script, return its value with
`success := true`. -/
def execute_javascript (rem : Remote) (m : BrowserlessManager)
    (script session_id : String) :
    Except String ScriptResponse × BrowserlessManager :=
  match get_driver m session_id with
  | none => (.error noActiveSession, m)
  | some driver =>
    match rem.execJs driver script with
    | none => (.error "Failed to execute JavaScript", m)
    | some result => (.ok { success := true, result := result }, m)

/-- Embedding of the `take_screenshot` tool (src/server.py:341-360):
require an existing driver, capture a base64 screenshot, return it as a
data URL with `success := true`. -/
def take_screenshot (rem : Remote) (m : BrowserlessManager)
    (session_id : String) :
    Except String ScreenshotResponse × BrowserlessManager :=
  match get_driver m session_id with
  | none => (.error noActiveSession, m)
  | some driver =>
    match rem.shot driver with
    | none => (.error "Failed to take screenshot", m)
    | some b64 =>
        (.ok { screenshot := "data:image/png;base64," ++ b64, success := true }, m)

/-- Embedding of the `close_browser` tool (src/server.py:364-372): close
the session's driver (best effort) and always report success. -/
def close_browser (rem : Remote) (m : BrowserlessManager)
    (session_id : String) :
    Except String CloseResponse × BrowserlessManager :=
  let m' := close_driver rem.quitFails m session_id
  (.ok { success := true, message := "Browser session closed" }, m')

/-- Embedding of the `get_page_info` tool (src/server.py:376-396): require
an existing driver and report title, URL, page-source length and window
handle (no `success` field in its model). -/
def get_page_info (rem : Remote) (m : BrowserlessManager)
    (session_id : String) :
    Except String PageInfo × BrowserlessManager :=
  match get_driver m session_id with
  | none => (.error noActiveSession, m)
  | some driver =>
    match rem.obs driver with
    | none => (.error "Failed to get page info", m)
    | some o =>
        (.ok { title := o.title
               url := o.current_url
               page_source_length := o.page_source.length
               window_handle := o.window_handle }, m)

/-- Registry-level operations, for stating reachability and persistence
properties of the session mapping (spec section 4.1). -/
inductive RegOp where
  | create (sid : String)
  | get (sid : String)
  | close (sid : String)
  | closeAll
  deriving Repr, DecidableEq

/-- Effect of one registry operation on the manager (`get` reads only). -/
def applyOp (quitFails : DriverId → Bool) (m : BrowserlessManager) :
    RegOp → BrowserlessManager
  | .create sid => (create_driver m sid).2
  | .get _ => m
  | .close sid => close_driver quitFails m sid
  | .closeAll => close_all quitFails m

/-- Effect of a sequence of registry operations, first to last. -/
def applyOps (quitFails : DriverId → Bool) (m : BrowserlessManager)
    (ops : List RegOp) : BrowserlessManager :=
  ops.foldl (applyOp quitFails) m

/-- Registry invariant: every stored driver id is below the allocation
counter, every quit driver id is below the counter, stored ids are
pairwise distinct, and no stored id has been quit. -/
def Inv (m : BrowserlessManager) : Prop :=
  (∀ kv ∈ m.drivers, kv.2 < m.nextId) ∧
  (∀ d ∈ m.quitted, d < m.nextId) ∧
  (m.drivers.map Prod.snd).Nodup ∧
  (∀ kv ∈ m.drivers, kv.2 ∉ m.quitted)

/-! ### Concrete fixtures used to evaluate the definitions -/

/-- Remote oracle on which every delegated browser call succeeds with
fixed data and `quit` never fails. -/
def remOk : Remote :=
  { nav := fun _ _ => some ⟨"Example", "http://example.com/", "<html>", "w1"⟩
    findEl := fun _ _ _ =>
      some ⟨"div", "hello", [("id", "main")], [("x", 1), ("y", 2)],
            [("width", 10), ("height", 20)]⟩
    clickObs := fun _ => some ⟨"After", "http://example.com/next", "<html>", "w1"⟩
    execJs := fun _ _ => some (.num 7)
    shot := fun _ => some "QUJD"
    obs := fun _ => some ⟨"Example", "http://example.com/", "<html>", "w1"⟩
    quitFails := fun _ => false }

/-- Manager freshly constructed: no session is mapped. -/
def mgr0 : BrowserlessManager := newManager "http://localhost:3000" none

/-- Manager with one session "s1" mapped to driver 0. -/
def mgr1 : BrowserlessManager :=
  { browserless_url := "http://localhost:3000"
    auth_token := none
    drivers := [("s1", 0)]
    nextId := 1
    quitted := [] }


/-! ### Dictionary lemmas -/

theorem dictGet_dictSet_self {κ α : Type} [DecidableEq κ] (m : List (κ × α))
    (k : κ) (v : α) : dictGet (dictSet m k v) k = some v := by
  induction m with
  | nil => simp [dictGet, dictSet]
  | cons hd t ih =>
    obtain ⟨k₀, v₀⟩ := hd
    by_cases h : k₀ = k
    · subst h
      simp [dictSet, dictGet]
    · simp [dictSet, dictGet, h, ih]

theorem dictGet_dictSet_ne {κ α : Type} [DecidableEq κ] (m : List (κ × α))
    (k k' : κ) (v : α) (h : k' ≠ k) :
    dictGet (dictSet m k v) k' = dictGet m k' := by
  have h' : ¬ k = k' := fun e => h e.symm
  induction m with
  | nil => simp [dictGet, dictSet, h']
  | cons hd t ih =>
    obtain ⟨k₀, v₀⟩ := hd
    by_cases hk : k₀ = k
    · subst hk
      simp [dictSet, dictGet, h']
    · by_cases hk' : k₀ = k'
      · simp [dictSet, dictGet, hk, hk', h, h']
      · simp [dictSet, dictGet, hk, hk', ih]

theorem dictGet_dictDel_self {κ α : Type} [DecidableEq κ] (m : List (κ × α))
    (k : κ) : dictGet (dictDel m k) k = none := by
  induction m with
  | nil => simp [dictGet, dictDel]
  | cons hd t ih =>
    obtain ⟨k₀, v₀⟩ := hd
    by_cases hk : k₀ = k
    · simpa [dictDel, hk] using ih
    · simpa [dictDel, hk, dictGet] using ih

theorem dictGet_dictDel_ne {κ α : Type} [DecidableEq κ] (m : List (κ × α))
    (k k' : κ) (h : k' ≠ k) : dictGet (dictDel m k) k' = dictGet m k' := by
  induction m with
  | nil => simp [dictDel]
  | cons hd t ih =>
    obtain ⟨k₀, v₀⟩ := hd
    by_cases hk : k₀ = k
    · have hne : ¬ k = k' := fun e => h e.symm
      have hne₀ : ¬ k₀ = k' := fun e => h (e ▸ hk)
      simpa [dictDel, dictGet, hk, hne, hne₀] using ih
    · by_cases hk' : k₀ = k'
      · have hne : ¬ k' = k := h
        simp [dictDel, dictGet, hk, hk', hne]
      · simpa [dictDel, dictGet, hk, hk'] using ih

theorem dictDel_idem {κ α : Type} [DecidableEq κ] (m : List (κ × α))
    (k : κ) : dictDel (dictDel m k) k = dictDel m k := by
  simp [dictDel, List.filter_filter]

theorem mem_dictSet {κ α : Type} [DecidableEq κ] (m : List (κ × α)) (k : κ)
    (v : α) (kv : κ × α) (h : kv ∈ dictSet m k v) : kv = (k, v) ∨ kv ∈ m := by
  induction m with
  | nil =>
    unfold dictSet at h
    exact Or.inl (List.mem_singleton.mp h)
  | cons hd t ih =>
    obtain ⟨k₀, v₀⟩ := hd
    by_cases hk : k₀ = k
    · rw [show dictSet ((k₀, v₀) :: t) k v = (k, v) :: t by simp [dictSet, hk]] at h
      rcases List.mem_cons.mp h with h | h
      · exact Or.inl h
      · exact Or.inr (List.mem_cons_of_mem _ h)
    · rw [show dictSet ((k₀, v₀) :: t) k v = (k₀, v₀) :: dictSet t k v by
        simp [dictSet, hk]] at h
      rcases List.mem_cons.mp h with h | h
      · exact Or.inr (by simp [h])
      · rcases ih h with h' | h'
        · exact Or.inl h'
        · exact Or.inr (List.mem_cons_of_mem _ h')

theorem mem_dictDel {κ α : Type} [DecidableEq κ] (m : List (κ × α)) (k : κ)
    (kv : κ × α) (h : kv ∈ dictDel m k) : kv ∈ m ∧ kv.1 ≠ k := by
  unfold dictDel at h
  refine ⟨List.mem_of_mem_filter h, ?_⟩
  have := List.of_mem_filter h
  simpa using this

theorem dictGet_mem {κ α : Type} [DecidableEq κ] (m : List (κ × α)) (k : κ)
    (v : α) (h : dictGet m k = some v) : (k, v) ∈ m := by
  induction m with
  | nil => simp [dictGet] at h
  | cons hd t ih =>
    obtain ⟨k₀, v₀⟩ := hd
    by_cases hk : k₀ = k
    · subst hk
      simp [dictGet] at h
      simp [h]
    · simp [dictGet, hk] at h
      exact List.mem_cons_of_mem _ (ih h)

theorem snd_mem_dictSet {κ α : Type} [DecidableEq κ] (m : List (κ × α))
    (k : κ) (v d : α) (h : d ∈ (dictSet m k v).map Prod.snd) :
    d = v ∨ d ∈ m.map Prod.snd := by
  simp only [List.mem_map] at h
  obtain ⟨kv, hkv, hd⟩ := h
  rcases mem_dictSet m k v kv hkv with h' | h'
  · left
    rw [← hd, h']
  · right
    exact List.mem_map.mpr ⟨kv, h', hd⟩

theorem nodup_snd_dictSet {κ α : Type} [DecidableEq κ] (m : List (κ × α))
    (k : κ) (v : α) (hnd : (m.map Prod.snd).Nodup)
    (hv : v ∉ m.map Prod.snd) : ((dictSet m k v).map Prod.snd).Nodup := by
  induction m with
  | nil => simp [dictSet]
  | cons hd t ih =>
    obtain ⟨k₀, v₀⟩ := hd
    simp only [List.map_cons, List.nodup_cons] at hnd
    simp only [List.map_cons, List.mem_cons, not_or] at hv
    by_cases hk : k₀ = k
    · rw [show dictSet ((k₀, v₀) :: t) k v = (k, v) :: t by simp [dictSet, hk]]
      simp only [List.map_cons, List.nodup_cons]
      exact ⟨hv.2, hnd.2⟩
    · rw [show dictSet ((k₀, v₀) :: t) k v = (k₀, v₀) :: dictSet t k v by
        simp [dictSet, hk]]
      simp only [List.map_cons, List.nodup_cons]
      refine ⟨?_, ih hnd.2 hv.2⟩
      intro hmem
      rcases snd_mem_dictSet t k v v₀ hmem with h' | h'
      · exact hv.1 h'.symm
      · exact hnd.1 h'

theorem nodup_snd_dictDel {κ α : Type} [DecidableEq κ] (m : List (κ × α))
    (k : κ) (hnd : (m.map Prod.snd).Nodup) :
    ((dictDel m k).map Prod.snd).Nodup := by
  have hsub : List.Sublist (dictDel m k) m := List.filter_sublist m
  exact hnd.sublist (hsub.map Prod.snd)

/-! ### Lowercasing lemmas -/

theorem lowerMap_values_not_keys :
    ∀ p ∈ lowerMap, dictGet lowerMap p.2 = none := by decide

theorem lowerChar_idem (c : Char) : lowerChar (lowerChar c) = lowerChar c := by
  unfold lowerChar
  cases hc : dictGet lowerMap c with
  | none => simp [hc]
  | some v =>
    have hv : (c, v) ∈ lowerMap := dictGet_mem _ _ _ hc
    have hnone : dictGet lowerMap v = none := lowerMap_values_not_keys (c, v) hv
    simp [hc, hnone]

theorem pyLower_idem (s : String) : pyLower (pyLower s) = pyLower s := by
  unfold pyLower
  simp only [List.map_map]
  congr 1
  exact List.map_congr_left (fun a _ => lowerChar_idem a)


/-! ### Registry lemmas -/

theorem close_driver_absent (qf : DriverId → Bool) (m : BrowserlessManager)
    (s : String) (h : get_driver m s = none) : close_driver qf m s = m := by
  unfold get_driver at h
  unfold close_driver
  simp [h]

theorem get_driver_close_self (qf : DriverId → Bool) (m : BrowserlessManager)
    (s : String) : get_driver (close_driver qf m s) s = none := by
  unfold close_driver
  cases hc : dictGet m.drivers s with
  | none => simpa [get_driver] using hc
  | some d => simpa [get_driver] using dictGet_dictDel_self m.drivers s

theorem get_driver_close_ne (qf : DriverId → Bool) (m : BrowserlessManager)
    (s s' : String) (h : s' ≠ s) :
    get_driver (close_driver qf m s) s' = get_driver m s' := by
  unfold close_driver
  cases hc : dictGet m.drivers s with
  | none => rfl
  | some d => simpa [get_driver] using dictGet_dictDel_ne m.drivers s s' h

theorem inv_newManager (url : String) (tok : Option String) :
    Inv (newManager url tok) := by
  simp [Inv, newManager]

theorem inv_create (m : BrowserlessManager) (s : String) (h : Inv m) :
    Inv (create_driver m s).2 := by
  obtain ⟨h1, h2, h3, h4⟩ := h
  have hfresh : m.nextId ∉ m.drivers.map Prod.snd := by
    intro hmem
    obtain ⟨kv, hkv, he⟩ := List.mem_map.mp hmem
    exact absurd (he ▸ h1 kv hkv) (lt_irrefl _)
  refine ⟨?_, ?_, ?_, ?_⟩
  · intro kv hkv
    rcases mem_dictSet m.drivers s m.nextId kv hkv with h' | h'
    · simp [create_driver, h']
    · exact Nat.lt_succ_of_lt (h1 kv h')
  · intro d hd
    exact Nat.lt_succ_of_lt (h2 d hd)
  · exact nodup_snd_dictSet m.drivers s m.nextId h3 hfresh
  · intro kv hkv
    rcases mem_dictSet m.drivers s m.nextId kv hkv with h' | h'
    · rw [h']
      intro hq
      exact absurd (h2 _ hq) (lt_irrefl _)
    · exact h4 kv h'

theorem inv_close (qf : DriverId → Bool) (m : BrowserlessManager)
    (s : String) (h : Inv m) : Inv (close_driver qf m s) := by
  obtain ⟨h1, h2, h3, h4⟩ := h
  unfold close_driver
  cases hc : dictGet m.drivers s with
  | none => exact ⟨h1, h2, h3, h4⟩
  | some d =>
    have hmem : (s, d) ∈ m.drivers := dictGet_mem m.drivers s d hc
    refine ⟨?_, ?_, ?_, ?_⟩
    · intro kv hkv
      exact h1 kv (mem_dictDel m.drivers s kv hkv).1
    · intro d' hd'
      rcases List.mem_cons.mp hd' with h' | h'
      · exact h' ▸ h1 _ hmem
      · exact h2 d' h'
    · exact nodup_snd_dictDel m.drivers s h3
    · intro kv hkv
      obtain ⟨hin, hne⟩ := mem_dictDel m.drivers s kv hkv
      intro hq
      rcases List.mem_cons.mp hq with h' | h'
      · have : kv = (s, d) :=
          List.inj_on_of_nodup_map h3 hin hmem (by simpa using h')
        exact hne (by simp [this])
      · exact h4 kv hin h'

theorem inv_foldl_close (qf : DriverId → Bool) (keys : List String)
    (m : BrowserlessManager) (h : Inv m) :
    Inv (keys.foldl (close_driver qf) m) := by
  induction keys generalizing m with
  | nil => exact h
  | cons k t ih => exact ih (close_driver qf m k) (inv_close qf m k h)

theorem inv_applyOp (qf : DriverId → Bool) (m : BrowserlessManager)
    (op : RegOp) (h : Inv m) : Inv (applyOp qf m op) := by
  cases op with
  | create sid => exact inv_create m sid h
  | get sid => exact h
  | close sid => exact inv_close qf m sid h
  | closeAll => exact inv_foldl_close qf (m.drivers.map Prod.fst) m h

theorem inv_applyOps (qf : DriverId → Bool) (m : BrowserlessManager)
    (ops : List RegOp) (h : Inv m) : Inv (applyOps qf m ops) := by
  induction ops generalizing m with
  | nil => exact h
  | cons op t ih => exact ih (applyOp qf m op) (inv_applyOp qf m op h)

theorem get_driver_applyOp_preserve (qf : DriverId → Bool)
    (m : BrowserlessManager) (op : RegOp) (s : String) (d : DriverId)
    (h : get_driver m s = some d) (h1 : op ≠ RegOp.create s)
    (h2 : op ≠ RegOp.close s) (h3 : op ≠ RegOp.closeAll) :
    get_driver (applyOp qf m op) s = some d := by
  cases op with
  | create t =>
    have ht : s ≠ t := fun e => h1 (by rw [e])
    unfold get_driver at h ⊢
    simpa [applyOp, create_driver] using
      (dictGet_dictSet_ne m.drivers t s m.nextId ht).trans h
  | get t => exact h
  | close t =>
    have ht : s ≠ t := fun e => h2 (by rw [e])
    exact (get_driver_close_ne qf m t s ht).trans h
  | closeAll => exact absurd rfl h3


theorem get_driver_applyOps_preserve (qf : DriverId → Bool)
    (m : BrowserlessManager) (ops : List RegOp) (s : String) (d : DriverId)
    (h : get_driver m s = some d)
    (hops : ∀ op ∈ ops,
      op ≠ RegOp.create s ∧ op ≠ RegOp.close s ∧ op ≠ RegOp.closeAll) :
    get_driver (applyOps qf m ops) s = some d := by
  induction ops generalizing m with
  | nil => exact h
  | cons op t ih =>
    have h1 := hops op (List.mem_cons_self op t)
    exact ih (applyOp qf m op)
      (get_driver_applyOp_preserve qf m op s d h h1.1 h1.2.1 h1.2.2)
      (fun o ho => hops o (List.mem_cons_of_mem _ ho))

/-! ### Serialized-field lemmas -/

theorem navigate_toFields_success (r : NavigateResponse) :
    dictGet r.toFields "success" = some (.bool r.success) := rfl

theorem click_toFields_success (r : ClickResponse) :
    dictGet r.toFields "success" = some (.bool r.success) := rfl

theorem script_toFields_success (r : ScriptResponse) :
    dictGet r.toFields "success" = some (.bool r.success) := rfl

theorem screenshot_toFields_success (r : ScreenshotResponse) :
    dictGet r.toFields "success" = some (.bool r.success) := rfl

theorem closeResp_toFields_success (r : CloseResponse) :
    dictGet r.toFields "success" = some (.bool r.success) := rfl

theorem elementInfo_toFields_no_success (r : ElementInfo) :
    dictGet r.toFields "success" = none := rfl

theorem pageInfo_toFields_no_success (r : PageInfo) :
    dictGet r.toFields "success" = none := rfl

/-! ### Claim theorems -/

/-- C1 counterexample: the claim says every tool operation that needs a
browser — find_element among them — resolves the connection by
get_or_create, creating and storing a new handle when the session
identifier is absent from the mapping.  On the fresh manager `mgr0`
(no entry for "s1"), `find_element` instead raises the no-active-session
error, leaves the manager unchanged, and stores nothing under "s1". -/
theorem find_element_does_not_get_or_create :
    (find_element remOk mgr0 "div" "css" "s1").1 = .error noActiveSession ∧
    (find_element remOk mgr0 "div" "css" "s1").2 = mgr0 ∧
    get_driver (find_element remOk mgr0 "div" "css" "s1").2 "s1" = none :=
  ⟨rfl, rfl, rfl⟩

/-- C1 (amended): only `navigate_to_url` resolves its connection by the
get_or_create pattern — when the session identifier is present it uses the
existing handle and leaves the registry unchanged, and when absent it
creates and stores a new handle; the other operations that need a browser
(find_element, click_element, execute_javascript, take_screenshot,
get_page_info) never create: on an absent identifier each raises the
no-active-session error and leaves the registry unchanged. -/
theorem get_or_create_only_in_navigate
    (rem : Remote) (m : BrowserlessManager) (url sel byS script sid : String) :
    (∀ d, get_driver m sid = some d → (navigate_to_url rem m url sid).2 = m) ∧
    (get_driver m sid = none →
      (navigate_to_url rem m url sid).2 = (create_driver m sid).2 ∧
      get_driver (navigate_to_url rem m url sid).2 sid = some m.nextId) ∧
    (get_driver m sid = none →
      find_element rem m sel byS sid = (.error noActiveSession, m) ∧
      click_element rem m sel byS sid = (.error noActiveSession, m) ∧
      execute_javascript rem m script sid = (.error noActiveSession, m) ∧
      take_screenshot rem m sid = (.error noActiveSession, m) ∧
      get_page_info rem m sid = (.error noActiveSession, m)) := by
  refine ⟨?_, ?_, ?_⟩
  · intro d h
    simp only [navigate_to_url, h]
    cases rem.nav d url <;> rfl
  · intro h
    have h2 : (navigate_to_url rem m url sid).2 = (create_driver m sid).2 := by
      simp only [navigate_to_url, h]
      cases rem.nav (create_driver m sid).1 url <;> rfl
    refine ⟨h2, ?_⟩
    rw [h2]
    simpa [get_driver, create_driver] using
      dictGet_dictSet_self m.drivers sid m.nextId
  · intro h
    unfold find_element click_element execute_javascript take_screenshot
      get_page_info
    rw [h]
    exact ⟨rfl, rfl, rfl, rfl, rfl⟩

/-- C1 witness: the amended theorem evaluated on concrete registries — a
present session reused by navigate, an absent one created by navigate, and
an absent one rejected by find_element. -/
theorem get_or_create_only_in_navigate_witness :
    (navigate_to_url remOk mgr1 "http://example.com" "s1").2 = mgr1 ∧
    get_driver (navigate_to_url remOk mgr0 "http://example.com" "s1").2 "s1"
      = some 0 ∧
    find_element remOk mgr0 "div" "css" "s1" = (.error noActiveSession, mgr0) := by
  refine ⟨?_, ?_, ?_⟩
  · exact (get_or_create_only_in_navigate remOk mgr1 "http://example.com"
      "div" "css" "x" "s1").1 0 rfl
  · exact ((get_or_create_only_in_navigate remOk mgr0 "http://example.com"
      "div" "css" "x" "s1").2.1 rfl).2
  · exact ((get_or_create_only_in_navigate remOk mgr0 "http://example.com"
      "div" "css" "x" "s1").2.2 rfl).1

/-- C2: for every session identifier absent from the registry mapping, each
of find_element, click_element, execute_javascript, take_screenshot and
get_page_info raises the no-active-session error, creates no connection,
and leaves the mapping (indeed the whole manager state) unchanged. -/
theorem absent_session_errors_without_mutation
    (rem : Remote) (m : BrowserlessManager) (sel byS script sid : String)
    (h : get_driver m sid = none) :
    find_element rem m sel byS sid = (.error noActiveSession, m) ∧
    click_element rem m sel byS sid = (.error noActiveSession, m) ∧
    execute_javascript rem m script sid = (.error noActiveSession, m) ∧
    take_screenshot rem m sid = (.error noActiveSession, m) ∧
    get_page_info rem m sid = (.error noActiveSession, m) := by
  unfold find_element click_element execute_javascript take_screenshot
    get_page_info
  rw [h]
  exact ⟨rfl, rfl, rfl, rfl, rfl⟩

/-- C2 witness: the five operations on the fresh manager and the
never-seen session identifier "s9". -/
theorem absent_session_errors_without_mutation_witness :
    find_element remOk mgr0 "a" "css" "s9" = (.error noActiveSession, mgr0) ∧
    click_element remOk mgr0 "a" "css" "s9" = (.error noActiveSession, mgr0) ∧
    execute_javascript remOk mgr0 "1+1" "s9" = (.error noActiveSession, mgr0) ∧
    take_screenshot remOk mgr0 "s9" = (.error noActiveSession, mgr0) ∧
    get_page_info remOk mgr0 "s9" = (.error noActiveSession, mgr0) :=
  absent_session_errors_without_mutation remOk mgr0 "a" "css" "1+1" "s9" rfl

/-- C3 counterexample: `get_page_info` completes without error on the
mapped session "s1", yet its structured result serializes to exactly the
four fields title, url, page_source_length and window_handle — it contains
no `success` field at all, contradicting the claim that every errorless
result of all seven tool operations carries an explicit success: true. -/
theorem page_info_result_has_no_success_field :
    ((get_page_info remOk mgr1 "s1").1.map (fun r => r.toFields.map Prod.fst))
      = .ok ["title", "url", "page_source_length", "window_handle"] ∧
    "success" ∉ ["title", "url", "page_source_length", "window_handle"] :=
  ⟨rfl, by decide⟩

/-- C3 (amended): of the seven tool operations, five — navigate_to_url,
click_element, execute_javascript, take_screenshot, close_browser — return
a structured result with an explicit success field holding true whenever
they complete without error; the results of find_element and get_page_info
(ElementInfo and PageInfo) carry no success field. -/
theorem success_true_on_five_operations
    (rem : Remote) (m : BrowserlessManager) (url sel byS script sid : String) :
    (∀ r m', navigate_to_url rem m url sid = (.ok r, m') →
      dictGet r.toFields "success" = some (.bool true)) ∧
    (∀ r m', click_element rem m sel byS sid = (.ok r, m') →
      dictGet r.toFields "success" = some (.bool true)) ∧
    (∀ r m', execute_javascript rem m script sid = (.ok r, m') →
      dictGet r.toFields "success" = some (.bool true)) ∧
    (∀ r m', take_screenshot rem m sid = (.ok r, m') →
      dictGet r.toFields "success" = some (.bool true)) ∧
    (∀ r m', close_browser rem m sid = (.ok r, m') →
      dictGet r.toFields "success" = some (.bool true)) ∧
    (∀ r m', find_element rem m sel byS sid = (.ok r, m') →
      dictGet r.toFields "success" = none) ∧
    (∀ r m', get_page_info rem m sid = (.ok r, m') →
      dictGet r.toFields "success" = none) := by
  refine ⟨?_, ?_, ?_, ?_, ?_, ?_, ?_⟩
  · intro r m' hr
    unfold navigate_to_url at hr
    try simp only [] at hr
    repeat' split at hr
    all_goals injection hr with h1 h2
    all_goals first
      | exact Except.noConfusion h1
      | (injection h1 with h1
         rw [← h1]
         rfl)
  · intro r m' hr
    unfold click_element at hr
    try simp only [] at hr
    repeat' split at hr
    all_goals injection hr with h1 h2
    all_goals first
      | exact Except.noConfusion h1
      | (injection h1 with h1
         rw [← h1]
         rfl)
  · intro r m' hr
    unfold execute_javascript at hr
    try simp only [] at hr
    repeat' split at hr
    all_goals injection hr with h1 h2
    all_goals first
      | exact Except.noConfusion h1
      | (injection h1 with h1
         rw [← h1]
         rfl)
  · intro r m' hr
    unfold take_screenshot at hr
    try simp only [] at hr
    repeat' split at hr
    all_goals injection hr with h1 h2
    all_goals first
      | exact Except.noConfusion h1
      | (injection h1 with h1
         rw [← h1]
         rfl)
  · intro r m' hr
    unfold close_browser at hr
    injection hr with h1 h2
    injection h1 with h1
    rw [← h1]
    rfl
  · intro r m' hr
    unfold find_element at hr
    try simp only [] at hr
    repeat' split at hr
    all_goals injection hr with h1 h2
    all_goals first
      | exact Except.noConfusion h1
      | (injection h1 with h1
         rw [← h1]
         rfl)
  · intro r m' hr
    unfold get_page_info at hr
    try simp only [] at hr
    repeat' split at hr
    all_goals injection hr with h1 h2
    all_goals first
      | exact Except.noConfusion h1
      | (injection h1 with h1
         rw [← h1]
         rfl)

/-- C3 witness: the amended theorem applied to a concrete errorless
navigate_to_url call. -/
theorem success_true_on_five_operations_witness :
    dictGet (NavigateResponse.toFields
      { title := "Example", current_url := "http://example.com/", success := true })
      "success" = some (JsonVal.bool true) :=
  (success_true_on_five_operations remOk mgr1 "http://example.com"
    "div" "css" "x" "s1").1
    { title := "Example", current_url := "http://example.com/", success := true }
    mgr1 rfl


/-- C4: `create_driver` stores the freshly created handle in the mapping
keyed by the session identifier — overwriting any prior binding without
invoking quit on the prior handle (the quit record is untouched) — and
returns exactly the stored handle; afterwards `get_driver` returns that
identical handle (the same identifier, not a copy) across any sequence of
registry operations that contains no further create for that identifier,
no close of it and no close_all. -/
theorem create_stores_returns_and_persists
    (m : BrowserlessManager) (s : String) :
    get_driver (create_driver m s).2 s = some (create_driver m s).1 ∧
    (create_driver m s).2.quitted = m.quitted ∧
    (∀ qf : DriverId → Bool, ∀ ops : List RegOp,
      (∀ op ∈ ops,
        op ≠ RegOp.create s ∧ op ≠ RegOp.close s ∧ op ≠ RegOp.closeAll) →
      get_driver (applyOps qf (create_driver m s).2 ops) s
        = some (create_driver m s).1) := by
  have hstore : get_driver (create_driver m s).2 s = some (create_driver m s).1 := by
    simpa [get_driver, create_driver] using
      dictGet_dictSet_self m.drivers s m.nextId
  refine ⟨hstore, rfl, ?_⟩
  intro qf ops hops
  exact get_driver_applyOps_preserve qf (create_driver m s).2 ops s
    (create_driver m s).1 hstore hops

/-- C4 witness: create "s1" on the fresh manager, then run a trace that
creates a second session, reads, and closes the second session; get "s1"
still returns the handle created for "s1", and nothing was quit. -/
theorem create_stores_returns_and_persists_witness :
    get_driver (create_driver mgr0 "s1").2 "s1" = some 0 ∧
    (create_driver mgr0 "s1").2.quitted = [] ∧
    get_driver (applyOps (fun _ => false) (create_driver mgr0 "s1").2
      [RegOp.create "s2", RegOp.get "s1", RegOp.close "s2"]) "s1" = some 0 := by
  refine ⟨?_, ?_, ?_⟩
  · exact (create_stores_returns_and_persists mgr0 "s1").1
  · exact (create_stores_returns_and_persists mgr0 "s1").2.1
  · exact (create_stores_returns_and_persists mgr0 "s1").2.2 (fun _ => false)
      [RegOp.create "s2", RegOp.get "s1", RegOp.close "s2"]
      (by intro op hop; fin_cases hop <;> refine ⟨?_, ?_, ?_⟩ <;> decide)

/-- C5: `close_driver` never propagates a failure of the underlying quit
(its result does not depend on whether quit raises), removes a present
session identifier from the mapping, is a no-op on an absent identifier,
and is therefore idempotent: a second close of the same identifier changes
nothing and raises nothing. -/
theorem close_swallows_removes_and_is_idempotent
    (qf qf' : DriverId → Bool) (m : BrowserlessManager) (s : String) :
    close_driver qf m s = close_driver qf' m s ∧
    get_driver (close_driver qf m s) s = none ∧
    (get_driver m s = none → close_driver qf m s = m) ∧
    close_driver qf (close_driver qf m s) s = close_driver qf m s := by
  refine ⟨rfl, get_driver_close_self qf m s, close_driver_absent qf m s, ?_⟩
  exact close_driver_absent qf (close_driver qf m s) s
    (get_driver_close_self qf m s)

/-- C5 witness: closing "s1" on the one-session manager removes it, a
close on the fresh (empty) manager is a no-op, and the double close equals
the single close. -/
theorem close_swallows_removes_and_is_idempotent_witness :
    get_driver (close_driver (fun _ => true) mgr1 "s1") "s1" = none ∧
    close_driver (fun _ => true) mgr0 "s1" = mgr0 ∧
    close_driver (fun _ => true) (close_driver (fun _ => true) mgr1 "s1") "s1"
      = close_driver (fun _ => true) mgr1 "s1" := by
  refine ⟨?_, ?_, ?_⟩
  · exact (close_swallows_removes_and_is_idempotent (fun _ => true)
      (fun _ => true) mgr1 "s1").2.1
  · exact (close_swallows_removes_and_is_idempotent (fun _ => true)
      (fun _ => true) mgr0 "s1").2.2.1 rfl
  · exact (close_swallows_removes_and_is_idempotent (fun _ => true)
      (fun _ => true) mgr1 "s1").2.2.2

/-- C6: in every registry state reachable from a freshly constructed
manager by any sequence of create, get, close and close_all operations,
each session identifier present in the mapping maps to a handle the
registry has never invoked quit on; and an identifier present in the
mapping is only removed by a close of that identifier or by close_all —
after any other single operation it is still present. -/
theorem reachable_states_map_to_live_handles
    (qf : DriverId → Bool) (url : String) (tok : Option String)
    (ops : List RegOp) (s : String) (d : DriverId) (op : RegOp)
    (hd : get_driver (applyOps qf (newManager url tok) ops) s = some d) :
    d ∉ (applyOps qf (newManager url tok) ops).quitted ∧
    (op ≠ RegOp.close s → op ≠ RegOp.closeAll →
      get_driver (applyOp qf (applyOps qf (newManager url tok) ops) op) s
        ≠ none) := by
  set mr := applyOps qf (newManager url tok) ops with hmr
  have hinv : Inv mr :=
    inv_applyOps qf (newManager url tok) ops (inv_newManager url tok)
  constructor
  · exact hinv.2.2.2 (s, d) (dictGet_mem mr.drivers s d hd)
  · intro h2 h3
    cases op with
    | create t =>
      by_cases ht : t = s
      · subst ht
        unfold get_driver applyOp create_driver
        simp [dictGet_dictSet_self]
      · have hts : s ≠ t := fun e => ht e.symm
        rw [get_driver_applyOp_preserve qf mr (RegOp.create t) s d hd
          (by simp [ht]) (by simp) (by simp)]
        simp
    | get t =>
      rw [show applyOp qf mr (RegOp.get t) = mr from rfl, hd]
      simp
    | close t =>
      have ht : t ≠ s := fun e => h2 (by rw [e])
      rw [get_driver_applyOp_preserve qf mr (RegOp.close t) s d hd
        (by simp) (by simp [ht]) (by simp)]
      simp
    | closeAll => exact absurd rfl h3

/-- C6 witness: after the trace create "s1", create "s2", close "s2", the
identifier "s1" maps to handle 0, which was never quit, and a get on
another identifier leaves "s1" present. -/
theorem reachable_states_map_to_live_handles_witness :
    (0 : DriverId) ∉ (applyOps (fun _ => false)
      (newManager "http://b:3000" none)
      [RegOp.create "s1", RegOp.create "s2", RegOp.close "s2"]).quitted ∧
    get_driver (applyOp (fun _ => false)
      (applyOps (fun _ => false) (newManager "http://b:3000" none)
        [RegOp.create "s1", RegOp.create "s2", RegOp.close "s2"])
      (RegOp.get "s9")) "s1" ≠ none := by
  have h := reachable_states_map_to_live_handles (fun _ => false)
    "http://b:3000" none [RegOp.create "s1", RegOp.create "s2", RegOp.close "s2"]
    "s1" 0 (RegOp.get "s9") rfl
  exact ⟨h.1, h.2 (by decide) (by decide)⟩


/-- C7: with BROWSERLESS_URL unset, the first invocation of the lazy
accessor raises the configuration error and leaves no registry constructed
(the global stays none; no manager exists, so no connection — the only
network activity in the embedding — can be created); with it set to a
non-empty value, construction succeeds and the registry records the
endpoint (right-stripped of trailing slashes, as the constructor does)
together with the optional BROWSERLESS_TOKEN credential, starting with an
empty session mapping.  An empty-string value is treated like an unset
variable by the accessor's falsiness test. -/
theorem config_error_or_records_endpoint (env : Env) :
    (env.browserless_url = none →
      get_browserless_manager env none =
        (.error "BROWSERLESS_URL environment variable is required", none)) ∧
    (∀ url, env.browserless_url = some url → url ≠ "" →
      get_browserless_manager env none =
        (.ok (newManager url env.browserless_token),
         some (newManager url env.browserless_token)) ∧
      (newManager url env.browserless_token).browserless_url
        = rstripSlash url ∧
      (newManager url env.browserless_token).auth_token
        = env.browserless_token ∧
      (newManager url env.browserless_token).drivers = []) := by
  constructor
  · intro h
    simp [get_browserless_manager, h]
  · intro url hu hne
    refine ⟨?_, rfl, rfl, rfl⟩
    simp [get_browserless_manager, hu, hne]

/-- C7 witness: the accessor evaluated on an environment without
BROWSERLESS_URL and on one with it set (with a token), checking the
recorded, slash-stripped endpoint. -/
theorem config_error_or_records_endpoint_witness :
    get_browserless_manager ⟨none, none⟩ none =
      (.error "BROWSERLESS_URL environment variable is required", none) ∧
    get_browserless_manager ⟨some "http://b:3000/", some "tok"⟩ none =
      (.ok (newManager "http://b:3000/" (some "tok")),
       some (newManager "http://b:3000/" (some "tok"))) ∧
    (newManager "http://b:3000/" (some "tok")).browserless_url
      = "http://b:3000" := by
  refine ⟨?_, ?_, ?_⟩
  · exact (config_error_or_records_endpoint ⟨none, none⟩).1 rfl
  · exact ((config_error_or_records_endpoint
      ⟨some "http://b:3000/", some "tok"⟩).2 "http://b:3000/" rfl
      (by decide)).1
  · exact (((config_error_or_records_endpoint
      ⟨some "http://b:3000/", some "tok"⟩).2 "http://b:3000/" rfl
      (by decide)).2.1).trans (by decide)

/-- C8: the lazily constructed registry is a per-process singleton: once
the global holds a registry instance, every further call — under any
environment whatsoever, i.e. without re-reading the configuration —
returns that identical instance and leaves the global unchanged; hence
any call after a first successful one returns exactly the object the
first call constructed, and no second registry is ever built. -/
theorem lazy_accessor_returns_identical_instance
    (env env' : Env) (m : BrowserlessManager)
    (g' : Option BrowserlessManager) :
    get_browserless_manager env (some m) = (.ok m, some m) ∧
    (get_browserless_manager env none = (.ok m, g') →
      get_browserless_manager env' g' = (.ok m, g')) := by
  refine ⟨rfl, ?_⟩
  intro h
  cases hu : env.browserless_url with
  | none =>
    simp only [get_browserless_manager, hu] at h
    injection h with h1 h2
    exact Except.noConfusion h1
  | some url =>
    simp only [get_browserless_manager, hu] at h
    by_cases he : url = ""
    · rw [if_pos he] at h
      injection h with h1 h2
      exact Except.noConfusion h1
    · rw [if_neg he] at h
      injection h with h1 h2
      injection h1 with h1
      rw [← h2, ← h1]
      rfl

/-- C8 witness: after a first successful construction (BROWSERLESS_URL
set), a second call under a different environment returns the identical
registry instance without constructing a new one. -/
theorem lazy_accessor_returns_identical_instance_witness :
    get_browserless_manager ⟨none, some "other"⟩
        (some (newManager "http://b:3000" none))
      = (.ok (newManager "http://b:3000" none),
         some (newManager "http://b:3000" none)) :=
  (lazy_accessor_returns_identical_instance ⟨some "http://b:3000", none⟩
    ⟨none, some "other"⟩ (newManager "http://b:3000" none)
    (some (newManager "http://b:3000" none))).2 rfl

/-- C9: find_element and click_element resolve the strategy against the
fixed eight-member enumeration (css, xpath, id, name, class_name,
tag_name, link_text, partial_link_text): each member resolves to its
locator constant, and a strategy string that matches no member (after the
lowercasing that the lookup applies — see C10) falls back to CSS-selector
resolution instead of failing: byMethodOf returns CSS_SELECTOR and both
operations behave exactly as they do with strategy "css" — same registry
state and the same outcome up to the wrapped error message, which
interpolates the caller's strategy string verbatim. -/
theorem unknown_strategy_falls_back_to_css
    (rem : Remote) (m : BrowserlessManager) (sel sid s : String) :
    (∀ p ∈ by_method_table, byMethodOf p.1 = p.2) ∧
    (dictGet by_method_table (pyLower s) = none →
      byMethodOf s = By.CSS_SELECTOR ∧
      ((find_element rem m sel s sid).1.toOption
        = (find_element rem m sel "css" sid).1.toOption ∧
       (find_element rem m sel s sid).2
        = (find_element rem m sel "css" sid).2) ∧
      ((click_element rem m sel s sid).1.toOption
        = (click_element rem m sel "css" sid).1.toOption ∧
       (click_element rem m sel s sid).2
        = (click_element rem m sel "css" sid).2)) := by
  constructor
  · decide
  · intro h
    have hby : byMethodOf s = By.CSS_SELECTOR := by
      simp [byMethodOf, h]
    have hcss : byMethodOf "css" = By.CSS_SELECTOR := by decide
    refine ⟨hby, ?_, ?_⟩
    · simp only [find_element]
      cases hg : get_driver m sid with
      | none => simp
      | some d =>
        simp only [hby, hcss]
        cases hf : rem.findEl d By.CSS_SELECTOR sel with
        | none => simp [hf, Except.toOption]
        | some el => simp [hf, Except.toOption]
    · simp only [click_element]
      cases hg : get_driver m sid with
      | none => simp
      | some d =>
        simp only [hby, hcss]
        cases hf : rem.findEl d By.CSS_SELECTOR sel with
        | none => simp [hf, Except.toOption]
        | some el =>
          cases hc : rem.clickObs d with
          | none => simp [hf, hc, Except.toOption]
          | some o => simp [hf, hc, Except.toOption]

/-- C9 witness: the strategy string "unknown_strategy" matches no member
of the enumeration and resolves as css does. -/
theorem unknown_strategy_falls_back_to_css_witness :
    byMethodOf "unknown_strategy" = By.CSS_SELECTOR ∧
    (find_element remOk mgr1 "div" "unknown_strategy" "s1").1.toOption
      = (find_element remOk mgr1 "div" "css" "s1").1.toOption := by
  refine ⟨?_, ?_⟩
  · exact ((unknown_strategy_falls_back_to_css remOk mgr1 "div" "s1"
      "unknown_strategy").2 (by decide)).1
  · exact (((unknown_strategy_falls_back_to_css remOk mgr1 "div" "s1"
      "unknown_strategy").2 (by decide)).2.1).1

/-- C10: strategy resolution in find_element and click_element (both embed
their literal strategy dictionary lookup as byMethodOf) is
case-insensitive: the strategy string is lowercased before the lookup, so
every strategy string and its lowercase form resolve to the same locator
method; for example "XPATH" and "xpath" both resolve to By.XPATH. -/
theorem strategy_resolution_case_insensitive (s : String) :
    byMethodOf s = byMethodOf (pyLower s) ∧
    byMethodOf "XPATH" = By.XPATH ∧ byMethodOf "xpath" = By.XPATH := by
  refine ⟨?_, by decide, by decide⟩
  unfold byMethodOf
  rw [pyLower_idem]

end SeleniumMCP
